import Mathlib

/-!
Verification development for the SCAN-AI medical-report analyzer
(`app.py` + `model.py`).

The repository is a thin glue layer: an HTTP upload handler
(`app.py:analyze_report`) that validates an upload, stores it in a
temporary file, and drives `model.py:MedicalReportProcessor`:
OCR extraction (`extract_text_from_image`), streamed LLM calls
(`_get_groq_response`), highlight parsing (`analyze_with_llm`)
and orchestration (`process_medical_report`).

Python strings are embedded as `List Char`; the Python string
operations used by the code (`str.strip`, `str.strip(chars)`,
`str.splitlines`, `str.split(sep)`, `sep.join`, `in`) are defined
below following CPython semantics.  External effects (the OCR engine,
the Groq API, the filesystem) are passed in as explicit outcome
parameters; fallible Python code becomes `Except` values whose error
payload is the exception message.
-/

/-- Python strings, embedded character by character. -/
abbrev PyStr := List Char

/-- CPython `str.isspace` / the character class stripped by a bare
`str.strip()`: ASCII whitespace plus the Unicode space separators. -/
def pyIsSpace (c : Char) : Bool :=
  c ∈ [' ', '\t', '\n', '\r', '\x0b', '\x0c',
       '\x1c', '\x1d', '\x1e', '\x1f', '\x85', ' ', ' ',
       ' ', ' ', ' ', ' ', ' ', ' ',
       ' ', ' ', ' ', ' ', ' ',
       ' ', ' ', ' ', ' ', '　']

/-- Drop the characters satisfying `p` from both ends of a string:
the common core of Python `str.strip()` and `str.strip(chars)`. -/
def pyStripBy (p : Char → Bool) (s : PyStr) : PyStr :=
  ((s.dropWhile p).reverse.dropWhile p).reverse

/-- Python `str.strip()` (no argument): remove whitespace from both ends. -/
def pyStrip (s : PyStr) : PyStr :=
  pyStripBy pyIsSpace s

/-- Python `str.strip(chars)`: remove every leading and trailing character
that occurs in `chars`, from both ends. -/
def pyStripChars (chars : PyStr) (s : PyStr) : PyStr :=
  pyStripBy (fun c => c ∈ chars) s

/-- The line-boundary characters recognised by CPython `str.splitlines`
(`\r\n` is additionally treated as a single boundary). -/
def isLineBoundary (c : Char) : Bool :=
  c ∈ ['\n', '\r', '\x0b', '\x0c', '\x1c', '\x1d', '\x1e',
       '\x85', ' ', ' ']

/-- Worker for `pySplitlines`: `acc` holds the current line reversed. -/
def pySplitlinesAux : PyStr → PyStr → List PyStr
  | acc, [] => if acc.isEmpty then [] else [acc.reverse]
  | acc, '\r' :: '\n' :: rest => acc.reverse :: pySplitlinesAux [] rest
  | acc, c :: rest =>
      if isLineBoundary c then acc.reverse :: pySplitlinesAux [] rest
      else pySplitlinesAux (c :: acc) rest

/-- Python `str.splitlines()`: split at line boundaries, `\r\n` counting
as one boundary, with no empty trailing line. -/
def pySplitlines (s : PyStr) : List PyStr :=
  pySplitlinesAux [] s

/-- Worker for `pySplitChar`. -/
def pySplitCharAux (sep : Char) : PyStr → PyStr → List PyStr
  | acc, [] => [acc.reverse]
  | acc, c :: rest =>
      if c = sep then acc.reverse :: pySplitCharAux sep [] rest
      else pySplitCharAux sep (c :: acc) rest

/-- Python `str.split(sep)` for a one-character separator: split at every
occurrence, keeping empty fields. -/
def pySplitChar (sep : Char) (s : PyStr) : List PyStr :=
  pySplitCharAux sep [] s

/-- Python `sep.join(items)`. -/
def pyJoin (sep : PyStr) (items : List PyStr) : PyStr :=
  List.intercalate sep items

/-- The literal argument of `h.strip('-â€¢ \t')` in `model.py` line 241:
hyphen, U+00E2, U+20AC, U+00A2 (the UTF-8 bytes of a bullet `•` read back
as Latin-1), space and tab. -/
def decoChars : PyStr := ['-', 'â', '€', '¢', ' ', '\t']

/-- `model.py` lines 237-243: split the raw highlights response into
items.  If the text contains a newline, split on lines, keep the lines
that are non-empty after `strip()`, and `strip('-â€¢ \t')` each survivor;
otherwise split on commas and keep the comma fields that are non-empty
after `strip()`, each `strip()`ed. -/
def splitHighlights (highlights_text : PyStr) : List PyStr :=
  if highlights_text = [] then []
  else if '\n' ∈ highlights_text then
    ((pySplitlines highlights_text).filter
        (fun h => !(pyStrip h).isEmpty)).map (pyStripChars decoChars)
  else
    ((pySplitChar ',' highlights_text).filter
        (fun h => !(pyStrip h).isEmpty)).map pyStrip

/-- `model.py` lines 237-249: the full highlight parse — split as above,
fall back to the whole raw response when the split yields nothing but the
response is non-empty, and truncate to 5 items. -/
def parseHighlights (highlights_text : PyStr) : List PyStr :=
  let highlights := splitHighlights highlights_text
  let highlights :=
    if highlights = [] then
      if highlights_text = [] then [] else [highlights_text]
    else highlights
  highlights.take 5

/-- One OCR detection as returned by PaddleOCR: a bounding box and a
`(text, confidence)` pair.  The box and the confidence are never read by
`extract_text_from_image` (only `line[1][0]` is accessed), so their
numeric type is abstracted (`Int` standing in for the engine's floats). -/
structure OCRLine where
  box : List (Int × Int)
  text : PyStr
  confidence : Int
deriving DecidableEq

/-- `model.py` lines 42-75, `extract_text_from_image`.  The effects of
`Image.open(...).verify()` and `self.ocr.ocr(...)` are summarised by the
argument: `.error e` when either raises (message `e`), `.ok result` when
the engine returns the nested detection list.  An engine exception is
re-raised as `Exception("OCR extraction failed: ...")`; `if not result
or not result[0]` yields the empty string; otherwise the texts of the
first page's regions are joined with newlines in engine order. -/
def extract_text_from_image
    (ocrOutcome : Except PyStr (List (List OCRLine))) : Except PyStr PyStr :=
  match ocrOutcome with
  | .error e => .error ("OCR extraction failed: ".data ++ e)
  | .ok result =>
      match result with
      | [] => .ok []
      | page :: _ =>
          if page = [] then .ok []
          else .ok (pyJoin ['\n'] (page.map OCRLine.text))

/-- One streamed fragment from the chat-completion API, classified by
which of the three unwrapping shapes of `_get_groq_response` succeeds:
object-attribute access (`chunk.choices[0].delta.content`), dict access
(`chunk["choices"][0]["delta"]["content"]`), a plain `text` field, or
none of them (`garbled`).  `none` and `some ""` are both falsy in the
Python truthiness tests, so both contribute nothing. -/
inductive Chunk where
  | viaDelta (content : Option PyStr)
  | viaDict (content : Option PyStr)
  | viaText (content : Option PyStr)
  | garbled
deriving DecidableEq

/-- The text a fragment contributes to the accumulated response:
its payload when one of the shapes exposes truthy content, otherwise
nothing (the `except ... pass` ladder swallows every failure). -/
def chunkPayload : Chunk → PyStr
  | .viaDelta (some c) => c
  | .viaDelta none => []
  | .viaDict (some c) => c
  | .viaDict none => []
  | .viaText (some c) => c
  | .viaText none => []
  | .garbled => []

/-- `model.py` lines 77-111, `_get_groq_response`.  The remote call is
summarised by the argument: `.error e` when the API call or stream
iteration raises, `.ok chunks` for a delivered stream.  On success the
fragment payloads are accumulated in arrival order (`response_text +=`)
and the result is `strip()`ed; on failure the exception is re-raised as
`Exception("Groq API call failed: ...")`. -/
def _get_groq_response (call : Except PyStr (List Chunk)) : Except PyStr PyStr :=
  match call with
  | .error e => .error ("Groq API call failed: ".data ++ e)
  | .ok chunks =>
      .ok (pyStrip (chunks.foldl (fun acc c => acc ++ chunkPayload c) []))

/-- The `{"explanation": ..., "highlights": ...}` dict built by the
analysis methods of `MedicalReportProcessor`. -/
structure AnalysisResult where
  explanation : PyStr
  highlights : List PyStr
deriving DecidableEq

/-- `model.py` lines 207-256, `analyze_with_llm`: issue the explanation
call then the highlights call, substitute the fixed fallback sentence
for an empty explanation, parse the highlights, and wrap any failure as
`Exception("LLM analysis (Groq) failed: ...")`. -/
def analyze_with_llm
    (explanationCall highlightsCall : Except PyStr (List Chunk)) :
    Except PyStr AnalysisResult :=
  match _get_groq_response explanationCall with
  | .error e => .error ("LLM analysis (Groq) failed: ".data ++ e)
  | .ok explanation =>
      match _get_groq_response highlightsCall with
      | .error e => .error ("LLM analysis (Groq) failed: ".data ++ e)
      | .ok highlights_text =>
          .ok { explanation :=
                  if explanation ≠ [] then explanation
                  else "Unable to generate explanation.".data,
                highlights := parseHighlights highlights_text }

/-- The result dict of `process_medical_report`. -/
structure ReportResult where
  raw_text : PyStr
  explanation : PyStr
  highlights : List PyStr
deriving DecidableEq

/-- The canned result returned when no text is extracted
(`model.py` lines 278-282). -/
def emptyReportResult : ReportResult :=
  { raw_text := []
    explanation := "No text could be extracted from the image.".data
    highlights := [] }

/-- `model.py` lines 258-291, `process_medical_report`: extract text,
short-circuit to the canned result when `raw_text.strip()` is falsy,
otherwise analyze with the LLM and assemble the result dict.  Errors of
either step propagate unchanged. -/
def process_medical_report
    (ocrOutcome : Except PyStr (List (List OCRLine)))
    (explanationCall highlightsCall : Except PyStr (List Chunk)) :
    Except PyStr ReportResult :=
  match extract_text_from_image ocrOutcome with
  | .error e => .error e
  | .ok raw_text =>
      if pyStrip raw_text = [] then .ok emptyReportResult
      else
        match analyze_with_llm explanationCall highlightsCall with
        | .error e => .error e
        | .ok analysis =>
            .ok { raw_text := raw_text
                  explanation := analysis.explanation
                  highlights := analysis.highlights }

/-- The process environment and collaborator behaviour seen by
`MedicalReportProcessor.__init__` (`model.py` lines 20-40):
`os.getenv("GROQ_API_KEY")` and whether the `Groq(...)` constructor
raises (with which message). -/
structure GroqEnv where
  groq_api_key : Option PyStr
  clientInitErr : Option PyStr
deriving DecidableEq

/-- `model.py` lines 20-40, `MedicalReportProcessor.__init__`: raise
`ValueError` naming `GROQ_API_KEY` when the variable is unset or empty
(`if not groq_api_key`), wrap a `Groq(...)` constructor failure, succeed
otherwise.  (The `PaddleOCR` engine construction on line 28 builds the
engine but runs no OCR on any image.) -/
def MedicalReportProcessor.init (env : GroqEnv) : Except PyStr Unit :=
  match env.groq_api_key with
  | none =>
      .error ("GROQ_API_KEY not found in environment variables. Please set it in your .env file.").data
  | some k =>
      if k = [] then
        .error ("GROQ_API_KEY not found in environment variables. Please set it in your .env file.").data
      else
        match env.clientInitErr with
        | some e => .error ("Failed to initialize Groq client: ".data ++ e)
        | none => .ok ()

/-- An incoming `/api/analyze` upload: declared MIME type and raw bytes.
(The filename, used only to pick the temporary file's suffix, affects no
claim and is omitted.) -/
structure AnalyzeRequest where
  content_type : PyStr
  contents : List Nat
deriving DecidableEq

/-- All external behaviour a single request can observe: the credential
environment and the outcomes of the OCR run and of the two streamed LLM
calls. -/
structure ExternalEnv where
  groq : GroqEnv
  ocrOutcome : Except PyStr (List (List OCRLine))
  explanationCall : Except PyStr (List Chunk)
  highlightsCall : Except PyStr (List Chunk)

/-- The HTTP outcome of the handler: a JSON success body or an
`HTTPException(status, detail)`. -/
inductive HandlerOutcome where
  | success (body : ReportResult)
  | httpError (status : Nat) (detail : PyStr)
deriving DecidableEq

/-- The observable trace of one request: the response plus ghost
observations of the request's side effects — whether a temporary file
was created, whether it still exists once the handler (including its
`finally` block) is done, and whether OCR / the LLM were invoked. -/
structure HandlerResult where
  response : HandlerOutcome
  tempFileCreated : Bool
  tempFileExistsAfter : Bool
  ocrInvoked : Bool
  llmInvoked : Bool
deriving DecidableEq

/-- `app.py` line 78: the content-type allow-list. -/
def allowed_types : List PyStr :=
  ["image/jpeg".data, "image/jpg".data, "image/png".data,
   "image/bmp".data, "image/tiff".data]

/-- `app.py` lines 80-83: the 400 detail for a disallowed content type,
`f"Invalid file type. Allowed types: {', '.join(allowed_types)}"`. -/
def invalidTypeMsg : PyStr :=
  "Invalid file type. Allowed types: ".data ++ pyJoin ", ".data allowed_types

/-- `app.py` line 93: the 400 detail for an oversized body. -/
def tooLargeMsg : PyStr :=
  "File too large. Maximum size is 10MB".data

/-- Ghost observation: the LLM is reached exactly when extraction
succeeds with text that is non-empty after `strip()`
(`model.py` lines 275-285). -/
def llmReached (ocrOutcome : Except PyStr (List (List OCRLine))) : Bool :=
  match extract_text_from_image ocrOutcome with
  | .ok raw_text => !(pyStrip raw_text).isEmpty
  | .error _ => false

/-- `app.py` lines 59-141, `analyze_report`.  Control flow of the
source: the content-type check precedes the `try`; inside the `try` the
body is read and the size checked before the temporary file is created;
the processor is lazily constructed (`alreadyInit` models the module
global already holding one) with a `ValueError` mapped to a 500; the
pipeline result is returned as JSON; a pipeline exception is mapped to
`500 "Failed to process medical report: ..."`; the `finally` block
unlinks the temporary file when it exists, swallowing unlink failures
(`unlinkOk = false` models `os.unlink` raising), so a created file
survives the request exactly when the unlink failed. -/
def analyze_report (req : AnalyzeRequest) (env : ExternalEnv)
    (alreadyInit : Bool) (unlinkOk : Bool) : HandlerResult :=
  if req.content_type ∉ allowed_types then
    { response := .httpError 400 invalidTypeMsg
      tempFileCreated := false
      tempFileExistsAfter := false
      ocrInvoked := false
      llmInvoked := false }
  else if req.contents.length > 10 * 1024 * 1024 then
    { response := .httpError 400 tooLargeMsg
      tempFileCreated := false
      tempFileExistsAfter := false
      ocrInvoked := false
      llmInvoked := false }
  else
    match (if alreadyInit then Except.ok () else MedicalReportProcessor.init env.groq) with
    | .error msg =>
        { response := .httpError 500 msg
          tempFileCreated := true
          tempFileExistsAfter := !unlinkOk
          ocrInvoked := false
          llmInvoked := false }
    | .ok _ =>
        match process_medical_report env.ocrOutcome env.explanationCall env.highlightsCall with
        | .ok result =>
            { response := .success result
              tempFileCreated := true
              tempFileExistsAfter := !unlinkOk
              ocrInvoked := true
              llmInvoked := llmReached env.ocrOutcome }
        | .error e =>
            { response := .httpError 500 ("Failed to process medical report: ".data ++ e)
              tempFileCreated := true
              tempFileExistsAfter := !unlinkOk
              ocrInvoked := true
              llmInvoked := llmReached env.ocrOutcome }

/-! ## Helper lemmas -/

theorem pyStripBy_eq_nil_iff (p : Char → Bool) (s : PyStr) :
    pyStripBy p s = [] ↔ ∀ c ∈ s, p c := by
  unfold pyStripBy
  rw [List.reverse_eq_nil_iff, List.dropWhile_eq_nil_iff]
  constructor
  · intro hall c hc
    have hsplit := List.takeWhile_append_dropWhile p s
    rw [← hsplit, List.mem_append] at hc
    rcases hc with hc | hc
    · exact List.mem_takeWhile_imp hc
    · exact hall c (List.mem_reverse.mpr hc)
  · intro hall c hc
    exact hall c ((List.dropWhile_sublist p).subset (List.mem_reverse.mp hc))

theorem pyStrip_eq_nil_iff (s : PyStr) :
    pyStrip s = [] ↔ ∀ c ∈ s, pyIsSpace c :=
  pyStripBy_eq_nil_iff pyIsSpace s

theorem foldl_append_eq_flatten {α : Type} (f : α → PyStr) (l : List α)
    (acc : PyStr) :
    l.foldl (fun a c => a ++ f c) acc = acc ++ (l.map f).flatten := by
  induction l generalizing acc with
  | nil => simp
  | cons c l ih => simp [ih, List.append_assoc]

theorem filter_map_eq_filterMap {α β : Type} (p : α → Bool) (f : α → β)
    (l : List α) :
    (l.filter p).map f = l.filterMap (fun x => if p x then some (f x) else none) := by
  induction l with
  | nil => rfl
  | cons a l ih => by_cases h : p a <;> simp [List.filter_cons, h, ih]

/-! ## Claim theorems -/

/-- C5: `extract_text_from_image` returns the empty string when the OCR
engine reports no regions (as a success, not an error), and otherwise
returns the text of every region of the engine's (single-image) output
page joined with a newline separator in engine order, unaffected by the
regions' confidence scores; on region texts `["Line A", "Line B"]` the
result is `"Line A\nLine B"`. -/
theorem extract_text_spec :
    (extract_text_from_image (.ok []) = .ok [] ∧
     extract_text_from_image (.ok [[]]) = .ok []) ∧
    (∀ page : List OCRLine, page ≠ [] →
      extract_text_from_image (.ok [page]) =
        .ok (pyJoin ['\n'] (page.map OCRLine.text)) ∧
      ∀ g : OCRLine → Int,
        extract_text_from_image
            (.ok [page.map (fun l => { l with confidence := g l })]) =
          extract_text_from_image (.ok [page])) ∧
    extract_text_from_image
        (.ok [[⟨[], "Line A".data, 0⟩, ⟨[], "Line B".data, 0⟩]]) =
      .ok "Line A\nLine B".data := by
  refine ⟨⟨rfl, rfl⟩, ?_, rfl⟩
  intro page hpage
  constructor
  · simp [extract_text_from_image, hpage]
  · intro g
    have hne : page.map (fun l : OCRLine => { l with confidence := g l }) ≠ [] := by
      simpa using hpage
    simp only [extract_text_from_image, hpage, hne, if_neg, List.map_map]
    congr 1

/-- Closed instance of `extract_text_spec`: a concrete one-region page
and a concrete confidence change. -/
theorem extract_text_spec_witness :
    extract_text_from_image (.ok [[⟨[], "A".data, 0⟩]]) =
      .ok (pyJoin ['\n'] (([⟨[], "A".data, 0⟩] : List OCRLine).map OCRLine.text)) ∧
    extract_text_from_image
        (.ok [([⟨[], "A".data, 0⟩] : List OCRLine).map
          (fun l => { l with confidence := (7 : Int) })]) =
      extract_text_from_image (.ok [[⟨[], "A".data, 0⟩]]) := by
  have h := extract_text_spec.2.1 [⟨[], "A".data, 0⟩] (by decide)
  exact ⟨h.1, h.2 (fun _ => 7)⟩

/-- C2: when extraction yields the empty string,
`process_medical_report` returns exactly the canned no-text result —
empty `raw_text`, the fixed message, no highlights — and the analyzer
is never invoked: the outcome is independent of the LLM call outcomes,
which are consulted only when the extracted text is non-empty. -/
theorem empty_extraction_short_circuit
    (ocrOutcome : Except PyStr (List (List OCRLine)))
    (e h e2 h2 : Except PyStr (List Chunk))
    (hx : extract_text_from_image ocrOutcome = .ok []) :
    process_medical_report ocrOutcome e h = .ok emptyReportResult ∧
    emptyReportResult =
      { raw_text := []
        explanation := "No text could be extracted from the image.".data
        highlights := [] } ∧
    process_medical_report ocrOutcome e h =
      process_medical_report ocrOutcome e2 h2 := by
  unfold process_medical_report
  rw [hx]
  exact ⟨rfl, rfl, rfl⟩

/-- Closed instance of `empty_extraction_short_circuit`: an OCR run with
no detections short-circuits to the canned result even though the two
LLM call outcomes disagree. -/
theorem empty_extraction_short_circuit_witness :
    process_medical_report (.ok []) (.ok []) (.ok []) = .ok emptyReportResult ∧
    process_medical_report (.ok []) (.ok []) (.ok []) =
      process_medical_report (.ok []) (.error []) (.error []) :=
  ⟨(empty_extraction_short_circuit (.ok []) (.ok []) (.ok [])
      (.error []) (.error []) rfl).1,
   (empty_extraction_short_circuit (.ok []) (.ok []) (.ok [])
      (.error []) (.error []) rfl).2.2⟩

/-- C9: extracted text that is non-empty but all whitespace is treated
exactly like the empty case — the canned result is returned with
`raw_text = ""`, discarding the whitespace text — and consequently the
`raw_text` of every successful result is either empty or contains at
least one non-whitespace character. -/
theorem whitespace_extraction_short_circuit :
    (∀ (o : Except PyStr (List (List OCRLine)))
       (e h : Except PyStr (List Chunk)) (raw : PyStr),
      extract_text_from_image o = .ok raw → raw ≠ [] →
      (∀ c ∈ raw, pyIsSpace c) →
      process_medical_report o e h = .ok emptyReportResult) ∧
    (∀ (o : Except PyStr (List (List OCRLine)))
       (e h : Except PyStr (List Chunk)) (r : ReportResult),
      process_medical_report o e h = .ok r →
      r.raw_text = [] ∨ ∃ c ∈ r.raw_text, ¬ pyIsSpace c) := by
  constructor
  · intro o e h raw hx _hne hsp
    unfold process_medical_report
    rw [hx]
    have hs : pyStrip raw = [] := (pyStrip_eq_nil_iff raw).mpr hsp
    simp [hs]
  · intro o e h r hr
    cases hx : extract_text_from_image o with
    | error msg => simp [process_medical_report, hx] at hr
    | ok raw =>
      by_cases hs : pyStrip raw = []
      · simp [process_medical_report, hx, hs] at hr
        left
        rw [← hr]
        rfl
      · cases ha : analyze_with_llm e h with
        | error m2 => simp [process_medical_report, hx, hs, ha] at hr
        | ok analysis =>
          simp [process_medical_report, hx, hs, ha] at hr
          right
          rw [← hr]
          have hne := mt (pyStrip_eq_nil_iff raw).mpr hs
          push_neg at hne
          exact hne

/-- Closed instance of `whitespace_extraction_short_circuit`: a single
OCR region consisting of one space short-circuits to the canned
result. -/
theorem whitespace_extraction_short_circuit_witness :
    process_medical_report (.ok [[⟨[], " ".data, 0⟩]]) (.ok []) (.ok []) =
      .ok emptyReportResult :=
  whitespace_extraction_short_circuit.1 (.ok [[⟨[], " ".data, 0⟩]])
    (.ok []) (.ok []) " ".data rfl (by decide) (by decide)

/-- C6: for every delivered stream, the assembled string is the
whitespace-trimmed concatenation, in arrival order, of the fragments'
text payloads; a fragment with no extractable text contributes nothing
and never aborts the stream (deleting it from anywhere in the stream
changes nothing); and an explanation that assembles to the empty string
is replaced by the fixed fallback sentence. -/
theorem streamed_assembly_spec :
    (∀ chunks : List Chunk,
      _get_groq_response (.ok chunks) =
        .ok (pyStrip ((chunks.map chunkPayload).flatten))) ∧
    (∀ l1 l2 : List Chunk,
      _get_groq_response (.ok (l1 ++ Chunk.garbled :: l2)) =
        _get_groq_response (.ok (l1 ++ l2))) ∧
    (∀ ec hc : List Chunk,
      analyze_with_llm (.ok ec) (.ok hc) =
        .ok { explanation :=
                if pyStrip ((ec.map chunkPayload).flatten) = []
                then "Unable to generate explanation.".data
                else pyStrip ((ec.map chunkPayload).flatten)
              highlights :=
                parseHighlights (pyStrip ((hc.map chunkPayload).flatten)) }) := by
  have hassemble : ∀ chunks : List Chunk,
      _get_groq_response (.ok chunks) =
        .ok (pyStrip ((chunks.map chunkPayload).flatten)) := by
    intro chunks
    simp [_get_groq_response, foldl_append_eq_flatten]
  refine ⟨hassemble, ?_, ?_⟩
  · intro l1 l2
    rw [hassemble, hassemble]
    simp [chunkPayload]
  · intro ec hc
    simp only [analyze_with_llm, hassemble]
    by_cases hemp : pyStrip ((ec.map chunkPayload).flatten) = [] <;>
      simp [hemp]

/-- C8: the parsed highlights list never exceeds 5 items, and when the
split stage yields nothing from a non-empty raw response the result is
exactly the one-element list holding the raw response verbatim. -/
theorem highlights_bounded_and_raw_fallback (t : PyStr) :
    (parseHighlights t).length ≤ 5 ∧
    (t ≠ [] → splitHighlights t = [] → parseHighlights t = [t]) := by
  constructor
  · show ((if splitHighlights t = [] then (if t = [] then [] else [t])
           else splitHighlights t).take 5).length ≤ 5
    rw [List.length_take]
    exact Nat.min_le_left _ _
  · intro h1 h2
    show ((if splitHighlights t = [] then (if t = [] then [] else [t])
           else splitHighlights t).take 5) = [t]
    rw [if_pos h2, if_neg h1]
    rfl

/-- Closed instance of `highlights_bounded_and_raw_fallback`: the
whitespace-only response `" "` splits to nothing and falls back to
itself verbatim. -/
theorem highlights_bounded_and_raw_fallback_witness :
    parseHighlights " ".data = [" ".data] ∧
    (parseHighlights " ".data).length ≤ 5 :=
  ⟨(highlights_bounded_and_raw_fallback " ".data).2 (by decide) (by decide),
   (highlights_bounded_and_raw_fallback " ".data).1⟩

/-- C10: in the newline branch the emptiness filter uses `strip()` of
the raw line and runs before the decorative strip, so the lone line
`"-"` survives the filter and is then stripped to the empty string:
`"- a\n-"` splits to `["a", ""]`, and the parsed highlights list can
contain empty-string elements. -/
theorem highlights_can_contain_empty :
    splitHighlights "- a\n-".data = ["a".data, ([] : PyStr)] ∧
    ([] : PyStr) ∈ parseHighlights "- a\n-".data := by decide

/-- Python `str.lstrip(chars)`: remove the leading characters that occur
in `chars` (used only to state the specification's claimed rule, which
speaks of stripping decorative leading characters). -/
def pyLStripChars (chars : PyStr) (s : PyStr) : PyStr :=
  s.dropWhile (fun c => c ∈ chars)

/-- The decorative characters named by the specification's description
of highlights parsing: hyphen, bullet glyph, middle dot, tab, space. -/
def specDecoChars : PyStr := ['-', '•', '·', '\t', ' ']

/-- The highlights-splitting rule exactly as the specification words
it (for comparison with the code's `splitHighlights`): split on
newlines when one is present, otherwise on commas; in either case
discard items that are empty after stripping, and strip the decorative
leading characters from each remaining item. -/
def specSplitHighlights (t : PyStr) : List PyStr :=
  if '\n' ∈ t then
    ((pySplitlines t).filter
        (fun h => !(pyStrip h).isEmpty)).map (pyLStripChars specDecoChars)
  else
    ((pySplitChar ',' t).filter
        (fun h => !(pyStrip h).isEmpty)).map
      (fun h => pyLStripChars specDecoChars (pyStrip h))

/-- C1 (counterexample): the code's splitting disagrees with the
claimed rule.  The code's strip set holds the mojibake characters
`â`,`€`,`¢` rather than the bullet glyph or the middle dot, and it
strips trailing characters too, while the comma branch strips
whitespace only: at `"• one-\nb"` the code yields `["• one", "b"]`
where the claimed rule yields `["one-", "b"]`, and at `"a, -b"` the
code yields `["a", "-b"]` where the claimed rule yields `["a", "b"]`. -/
theorem highlights_parsing_claim_counterexample :
    splitHighlights "• one-\nb".data = ["• one".data, "b".data] ∧
    specSplitHighlights "• one-\nb".data = ["one-".data, "b".data] ∧
    splitHighlights "• one-\nb".data ≠ specSplitHighlights "• one-\nb".data ∧
    splitHighlights "a, -b".data = ["a".data, "-b".data] ∧
    specSplitHighlights "a, -b".data = ["a".data, "b".data] ∧
    splitHighlights "a, -b".data ≠ specSplitHighlights "a, -b".data := by
  decide

/-- C1 (amended): for every non-empty highlights response, if the
response contains a newline the parsed items are the lines that are
non-empty after whitespace-stripping, each stripped on both ends of the
characters of the code's literal set — hyphen, `â`, `€`, `¢` (a
mojibake rendering of the intended bullet glyph), space, tab;
otherwise they are the comma fields that are non-empty after
whitespace-stripping, each whitespace-stripped; in particular
`"- finding one\n- finding two"` parses to
`["finding one", "finding two"]` and `"a, b, c"` to `["a","b","c"]`. -/
theorem highlights_parsing_amended :
    (∀ t : PyStr, t ≠ [] →
      ('\n' ∈ t →
        splitHighlights t = (pySplitlines t).filterMap
          (fun h => if (pyStrip h).isEmpty then none
                    else some (pyStripChars decoChars h))) ∧
      ('\n' ∉ t →
        splitHighlights t = (pySplitChar ',' t).filterMap
          (fun h => if (pyStrip h).isEmpty then none
                    else some (pyStrip h)))) ∧
    parseHighlights "- finding one\n- finding two".data =
      ["finding one".data, "finding two".data] ∧
    parseHighlights "a, b, c".data = ["a".data, "b".data, "c".data] := by
  refine ⟨?_, by decide, by decide⟩
  intro t ht
  constructor
  · intro hn
    unfold splitHighlights
    rw [if_neg ht, if_pos hn, filter_map_eq_filterMap]
    congr 1
    funext h
    cases hh : (pyStrip h).isEmpty <;> simp [hh]
  · intro hn
    unfold splitHighlights
    rw [if_neg ht, if_neg hn, filter_map_eq_filterMap]
    congr 1
    funext h
    cases hh : (pyStrip h).isEmpty <;> simp [hh]

/-- Closed instance of `highlights_parsing_amended`, one input per
branch. -/
theorem highlights_parsing_amended_witness :
    splitHighlights "x\ny".data = (pySplitlines "x\ny".data).filterMap
      (fun h => if (pyStrip h).isEmpty then none
                else some (pyStripChars decoChars h)) ∧
    splitHighlights "a,b".data = (pySplitChar ',' "a,b".data).filterMap
      (fun h => if (pyStrip h).isEmpty then none
                else some (pyStrip h)) :=
  ⟨(highlights_parsing_amended.1 "x\ny".data (by decide)).1 (by decide),
   (highlights_parsing_amended.1 "a,b".data (by decide)).2 (by decide)⟩

/-- C3: on every path — success, validation error, or processing
exception — a temporary file created for the request no longer exists
once the handler's cleanup has run (whenever the unlink itself
succeeds), and a failing unlink is swallowed: it never changes the
response, on any path. -/
theorem temp_file_cleanup (req : AnalyzeRequest) (env : ExternalEnv)
    (alreadyInit : Bool) :
    (analyze_report req env alreadyInit true).tempFileExistsAfter = false ∧
    ∀ unlinkOk : Bool,
      (analyze_report req env alreadyInit unlinkOk).response =
        (analyze_report req env alreadyInit true).response := by
  constructor
  · by_cases h1 : req.content_type ∉ allowed_types
    · simp [analyze_report, h1]
    · by_cases h2 : req.contents.length > 10 * 1024 * 1024
      · simp [analyze_report, h1, h2]
      · cases h3 : (if alreadyInit then Except.ok ()
                    else MedicalReportProcessor.init env.groq) with
        | error msg => simp [analyze_report, h1, h2, h3]
        | ok u =>
          cases h4 : process_medical_report env.ocrOutcome
              env.explanationCall env.highlightsCall with
          | ok r => simp [analyze_report, h1, h2, h3, h4]
          | error e => simp [analyze_report, h1, h2, h3, h4]
  · intro unlinkOk
    by_cases h1 : req.content_type ∉ allowed_types
    · simp [analyze_report, h1]
    · by_cases h2 : req.contents.length > 10 * 1024 * 1024
      · simp [analyze_report, h1, h2]
      · cases h3 : (if alreadyInit then Except.ok ()
                    else MedicalReportProcessor.init env.groq) with
        | error msg => simp [analyze_report, h1, h2, h3]
        | ok u =>
          cases h4 : process_medical_report env.ocrOutcome
              env.explanationCall env.highlightsCall with
          | ok r => simp [analyze_report, h1, h2, h3, h4]
          | error e => simp [analyze_report, h1, h2, h3, h4]

/-- C4: a disallowed content type is rejected with a 400 before any
temporary file is created and without any OCR or LLM activity; an
allowed content type with an oversized body (more than 10 MiB) is
rejected with a 400, likewise before any temporary file is created, so
none can be retained. -/
theorem upload_validation (req : AnalyzeRequest) (env : ExternalEnv)
    (alreadyInit unlinkOk : Bool) :
    (req.content_type ∉ allowed_types →
      analyze_report req env alreadyInit unlinkOk =
        { response := .httpError 400 invalidTypeMsg
          tempFileCreated := false
          tempFileExistsAfter := false
          ocrInvoked := false
          llmInvoked := false }) ∧
    (req.content_type ∈ allowed_types →
      req.contents.length > 10 * 1024 * 1024 →
      analyze_report req env alreadyInit unlinkOk =
        { response := .httpError 400 tooLargeMsg
          tempFileCreated := false
          tempFileExistsAfter := false
          ocrInvoked := false
          llmInvoked := false }) := by
  constructor
  · intro h1
    simp [analyze_report, h1]
  · intro h1 h2
    simp [analyze_report, h1, h2]

/-- Closed instance of `upload_validation`: a `text/plain` upload and an
oversized `image/png` upload are both rejected with a 400 and no
side effects. -/
theorem upload_validation_witness :
    analyze_report ⟨"text/plain".data, []⟩
        ⟨⟨none, none⟩, .ok [], .ok [], .ok []⟩ false true =
      { response := .httpError 400 invalidTypeMsg
        tempFileCreated := false
        tempFileExistsAfter := false
        ocrInvoked := false
        llmInvoked := false } ∧
    analyze_report ⟨"image/png".data, List.replicate (10 * 1024 * 1024 + 1) 0⟩
        ⟨⟨none, none⟩, .ok [], .ok [], .ok []⟩ false true =
      { response := .httpError 400 tooLargeMsg
        tempFileCreated := false
        tempFileExistsAfter := false
        ocrInvoked := false
        llmInvoked := false } :=
  ⟨(upload_validation _ _ false true).1 (by decide),
   (upload_validation _ _ false true).2 (by decide)
     (by rw [List.length_replicate]; exact Nat.lt_succ_self _)⟩

/-- C7: when the `GROQ_API_KEY` credential is absent from the
environment and no processor exists yet, a valid upload fails with a
500 whose detail names `GROQ_API_KEY` (the detail contains that name as
a substring), and OCR is never invoked on the image. -/
theorem missing_credential (req : AnalyzeRequest) (env : ExternalEnv)
    (unlinkOk : Bool)
    (hkey : env.groq.groq_api_key = none)
    (hct : req.content_type ∈ allowed_types)
    (hsize : req.contents.length ≤ 10 * 1024 * 1024) :
    (analyze_report req env false unlinkOk).response =
      .httpError 500
        ("GROQ_API_KEY not found in environment variables. Please set it in your .env file.").data ∧
    (∃ l r : PyStr,
      ("GROQ_API_KEY not found in environment variables. Please set it in your .env file.").data =
        l ++ "GROQ_API_KEY".data ++ r) ∧
    (analyze_report req env false unlinkOk).ocrInvoked = false := by
  have hsize' : ¬ (req.contents.length > 10 * 1024 * 1024) := by omega
  refine ⟨?_,
    ⟨[], " not found in environment variables. Please set it in your .env file.".data,
      by decide⟩, ?_⟩ <;>
    simp [analyze_report, hct, hsize', MedicalReportProcessor.init, hkey]

/-- Closed instance of `missing_credential`: a valid small `image/png`
upload with no credential in the environment. -/
theorem missing_credential_witness :
    (analyze_report ⟨"image/png".data, []⟩
        ⟨⟨none, none⟩, .ok [], .ok [], .ok []⟩ false true).response =
      .httpError 500
        ("GROQ_API_KEY not found in environment variables. Please set it in your .env file.").data ∧
    (analyze_report ⟨"image/png".data, []⟩
        ⟨⟨none, none⟩, .ok [], .ok [], .ok []⟩ false true).ocrInvoked = false :=
  ⟨(missing_credential _ _ true rfl (by decide) (by decide)).1,
   (missing_credential _ _ true rfl (by decide) (by decide)).2.2⟩
